import Mathlib

/-!
Verification of the request/response data model of the `async-openai`
Responses client: the JSON wire codecs that serde derives on
`src/async-openai/src/types/response.rs`, the derive_builder finalizers
declared there, and the dispatch guard of
`src/async-openai/src/responses.rs`, embedded shallowly.
-/

namespace AsyncOpenAI

/-- JSON values: the wire format. Numbers are modelled as exact rationals
(each finite Rust `f32`/`u32` value denotes one rational, and serde_json
round-trips it exactly through its shortest decimal form). -/
inductive Json where
  | null
  | bool (b : Bool)
  | num (q : ℚ)
  | str (s : String)
  | arr (elements : List Json)
  | obj (fields : List (String × Json))

/-- First binding of a key in a JSON object, as serde reads the map. -/
def jsonLookup (k : String) : List (String × Json) → Option Json
  | [] => none
  | (k', v) :: rest => if k' = k then some v else jsonLookup k rest

/-- The bindings contributed by a field carrying
`#[serde(skip_serializing_if = "Option::is_none")]`: nothing when unset,
one binding when set. -/
def optField (k : String) : Option Json → List (String × Json)
  | none => []
  | some j => [(k, j)]

/-- Serialization of an `Option` field that carries no skip attribute:
serde emits `null` for `None`. -/
def encodeNullable (enc : α → Json) : Option α → Json
  | none => Json.null
  | some x => enc x

/-- serde's reading of a present `Option` field value: an explicit `null`
is `None`, any other value must decode as the payload type. -/
def decodeValue (dec : Json → Option α) : Json → Option (Option α)
  | Json.null => some none
  | j => (dec j).map some

/-- serde's reading of an `Option` field from a field map: a missing key
is `None` (no `#[serde(default)]` needed for `Option` fields). -/
def decodeOptField (k : String) (dec : Json → Option α)
    (fields : List (String × Json)) : Option (Option α) :=
  match jsonLookup k fields with
  | none => some none
  | some j => decodeValue dec j

/-- serde's reading of a required field: a missing key is a decode error
(`missing field`), modelled as `none`. -/
def decodeField (k : String) (dec : Json → Option α)
    (fields : List (String × Json)) : Option α :=
  match jsonLookup k fields with
  | none => none
  | some j => dec j

/-- Element-wise decoding of a JSON array, failing when any element fails,
as serde decodes a `Vec`. -/
def decodeList (dec : Json → Option α) : List Json → Option (List α)
  | [] => some []
  | j :: js =>
    match dec j, decodeList dec js with
    | some x, some xs => some (x :: xs)
    | _, _ => none

def decodeString : Json → Option String
  | Json.str s => some s
  | _ => none

def decodeQ : Json → Option ℚ
  | Json.num q => some q
  | _ => none

/-- serde's reading of a `u32`: a JSON number that is a non-negative
integer (the 2^32 bound is not modelled; the embedded field type is
`Nat`, so every representable value round-trips). -/
def decodeNat : Json → Option Nat
  | Json.num q => if q.den = 1 ∧ 0 ≤ q.num then some q.num.toNat else none
  | _ => none

theorem jsonLookup_skip (k k' : String) (v : Option Json)
    (l2 : List (String × Json)) (h : k' ≠ k) :
    jsonLookup k (optField k' v ++ l2) = jsonLookup k l2 := by
  cases v <;> simp [optField, jsonLookup, h]

theorem jsonLookup_here (k : String) (v : Option Json)
    (l2 : List (String × Json)) (h2 : jsonLookup k l2 = none) :
    jsonLookup k (optField k v ++ l2) = v := by
  cases v <;> simp [optField, jsonLookup, h2]

theorem jsonLookup_cons_skip (k k' : String) (j : Json)
    (l2 : List (String × Json)) (h : k' ≠ k) :
    jsonLookup k ((k', j) :: l2) = jsonLookup k l2 := by
  simp [jsonLookup, h]

theorem jsonLookup_cons_here (k : String) (j : Json)
    (l2 : List (String × Json)) :
    jsonLookup k ((k, j) :: l2) = some j := by
  simp [jsonLookup]

theorem jsonLookup_nil (k : String) : jsonLookup k ([] : List (String × Json)) = none := rfl

theorem decodeValue_ne_null (dec : Json → Option α) (j : Json) (h : j ≠ Json.null) :
    decodeValue dec j = (dec j).map some := by
  cases j <;> first | exact absurd rfl h | rfl

theorem decodeOptField_map_eq (k : String) (dec : Json → Option α) (enc : α → Json)
    (fields : List (String × Json)) (o : Option α)
    (hlk : jsonLookup k fields = o.map enc)
    (hdec : ∀ x, dec (enc x) = some x) (hnn : ∀ x, enc x ≠ Json.null) :
    decodeOptField k dec fields = some o := by
  cases o with
  | none => simp [decodeOptField, hlk]
  | some x =>
    simp only [Option.map_some'] at hlk
    simp [decodeOptField, hlk, decodeValue_ne_null dec (enc x) (hnn x), hdec]

theorem decodeOptField_nullable_eq (k : String) (dec : Json → Option α) (enc : α → Json)
    (fields : List (String × Json)) (o : Option α)
    (hlk : jsonLookup k fields = some (encodeNullable enc o))
    (hdec : ∀ x, dec (enc x) = some x) (hnn : ∀ x, enc x ≠ Json.null) :
    decodeOptField k dec fields = some o := by
  cases o with
  | none => simp [decodeOptField, hlk, encodeNullable, decodeValue]
  | some x =>
    simp [decodeOptField, hlk, encodeNullable,
      decodeValue_ne_null dec (enc x) (hnn x), hdec]

theorem decodeField_eq (k : String) (dec : Json → Option α)
    (fields : List (String × Json)) (j : Json) (v : α)
    (hlk : jsonLookup k fields = some j) (hdec : dec j = some v) :
    decodeField k dec fields = some v := by
  simp [decodeField, hlk, hdec]

theorem decodeList_map (dec : Json → Option α) (enc : α → Json)
    (l : List α) (hdec : ∀ x ∈ l, dec (enc x) = some x) :
    decodeList dec (l.map enc) = some l := by
  induction l with
  | nil => rfl
  | cons x xs ih =>
    simp only [List.map_cons, decodeList, hdec x (by simp)]
    rw [ih (fun y hy => hdec y (by simp [hy]))]

theorem decodeNat_num (n : Nat) : decodeNat (Json.num n) = some n := by
  simp [decodeNat]

theorem decodeString_str (s : String) : decodeString (Json.str s) = some s := rfl

theorem decodeQ_num (q : ℚ) : decodeQ (Json.num q) = some q := rfl

/-! ## External types of the repository that are not under `src/` -/

/-- Modelled from the spec: `OpenAIError` is defined outside `src/`; the
spec's section 7 error taxonomy. -/
inductive OpenAIError where
  | MissingRequiredField (field : String)
  | SchemaMismatch (context : String)
  | InvalidArgument (message : String)
  | TransportError (message : String)

/-- Modelled from the spec: `ReasoningEffort` is defined outside `src/`;
the source doc comment on `Reasoning.effort` says the supported values are
`low`, `medium` and `high`. -/
inductive ReasoningEffort where
  | Low
  | Medium
  | High

def ReasoningEffort.token : ReasoningEffort → String
  | .Low => "low"
  | .Medium => "medium"
  | .High => "high"

def encodeReasoningEffort (e : ReasoningEffort) : Json := Json.str e.token

def decodeReasoningEffort : Json → Option ReasoningEffort
  | Json.str s =>
    if s = "low" then some .Low
    else if s = "medium" then some .Medium
    else if s = "high" then some .High
    else none
  | _ => none

/-- Modelled from the spec: `MessageStatus` is defined outside `src/`; the
source doc comment on `InputMessage.status` says one of `in_progress`,
`completed` or `incomplete`. -/
inductive MessageStatus where
  | InProgress
  | Completed
  | Incomplete

def MessageStatus.token : MessageStatus → String
  | .InProgress => "in_progress"
  | .Completed => "completed"
  | .Incomplete => "incomplete"

def encodeMessageStatus (s : MessageStatus) : Json := Json.str s.token

def decodeMessageStatus : Json → Option MessageStatus
  | Json.str s =>
    if s = "in_progress" then some .InProgress
    else if s = "completed" then some .Completed
    else if s = "incomplete" then some .Incomplete
    else none
  | _ => none

/-- Modelled from the spec: `ResponseFormat` is defined outside `src/`; the
text response format configuration, modelled as a raw JSON object. -/
structure ResponseFormat where
  fields : List (String × Json)

def encodeResponseFormat (f : ResponseFormat) : Json := Json.obj f.fields

def decodeResponseFormat : Json → Option ResponseFormat
  | Json.obj fs => some ⟨fs⟩
  | _ => none

/-- Modelled from the spec: `VectorStoreSearchFilter` is defined outside
`src/`; a file-attribute filter, modelled as a raw JSON object. -/
structure VectorStoreSearchFilter where
  fields : List (String × Json)

def encodeVectorStoreSearchFilter (f : VectorStoreSearchFilter) : Json := Json.obj f.fields

def decodeVectorStoreSearchFilter : Json → Option VectorStoreSearchFilter
  | Json.obj fs => some ⟨fs⟩
  | _ => none

/-- Modelled from the spec: `RankingOptions` is defined outside `src/`;
ranking options for file search, modelled as a raw JSON object. -/
structure RankingOptions where
  fields : List (String × Json)

def encodeRankingOptions (f : RankingOptions) : Json := Json.obj f.fields

def decodeRankingOptions : Json → Option RankingOptions
  | Json.obj fs => some ⟨fs⟩
  | _ => none

/-- Modelled from the spec: `FunctionObject` (aliased as `FunctionTool` in
the source) is defined outside `src/`; the spec describes a function tool
as a user-defined function the model may call, modelled by the called
function's name. -/
structure FunctionObject where
  name : String

def encodeFunctionObjectFields (f : FunctionObject) : List (String × Json) :=
  [("name", Json.str f.name)]

def decodeFunctionObjectFields (fields : List (String × Json)) : Option FunctionObject :=
  match decodeField "name" decodeString fields with
  | some n => some ⟨n⟩
  | none => none

/-- Modelled from the spec: `ItemReference` is not defined under `src/`;
spec section 3 lists it as the third `InputItem` shape, a reference to a
previously produced item, carried with its fixed `item_reference` type
token and the referenced item id. -/
structure ItemReference where
  id : String

def encodeItemReference (r : ItemReference) : Json :=
  Json.obj [("type", Json.str "item_reference"), ("id", Json.str r.id)]

def decodeItemReference : Json → Option ItemReference
  | Json.obj fields =>
    match jsonLookup "type" fields with
    | some (Json.str s) =>
      if s = "item_reference" then
        match decodeField "id" decodeString fields with
        | some i => some ⟨i⟩
        | none => none
      else none
    | _ => none
  | _ => none

/-! ## Enums of `src/async-openai/src/types/response.rs` -/

/-- `GenerateSummary`, `#[serde(rename_all = "lowercase")]`. -/
inductive GenerateSummary where
  | Concise
  | Detailed

def GenerateSummary.token : GenerateSummary → String
  | .Concise => "concise"
  | .Detailed => "detailed"

def encodeGenerateSummary (g : GenerateSummary) : Json := Json.str g.token

def decodeGenerateSummary : Json → Option GenerateSummary
  | Json.str s =>
    if s = "concise" then some .Concise
    else if s = "detailed" then some .Detailed
    else none
  | _ => none

/-- `Environment`, `#[serde(rename_all = "snake_case")]`. -/
inductive Environment where
  | Mac
  | Windows
  | Ubuntu
  | Browser

def Environment.token : Environment → String
  | .Mac => "mac"
  | .Windows => "windows"
  | .Ubuntu => "ubuntu"
  | .Browser => "browser"

def encodeEnvironment (e : Environment) : Json := Json.str e.token

def decodeEnvironment : Json → Option Environment
  | Json.str s =>
    if s = "mac" then some .Mac
    else if s = "windows" then some .Windows
    else if s = "ubuntu" then some .Ubuntu
    else if s = "browser" then some .Browser
    else none
  | _ => none

/-- `LocationType`, `#[serde(rename_all = "snake_case")]`, with
`#[default] Approximate`. -/
inductive LocationType where
  | Approximate

def LocationType.token : LocationType → String
  | .Approximate => "approximate"

def encodeLocationType (t : LocationType) : Json := Json.str t.token

def decodeLocationType : Json → Option LocationType
  | Json.str s => if s = "approximate" then some .Approximate else none
  | _ => none

/-- `ToolChoiceOptions`, `#[serde(rename_all = "lowercase")]`. -/
inductive ToolChoiceOptions where
  | None
  | Auto
  | Required

def ToolChoiceOptions.token : ToolChoiceOptions → String
  | .None => "none"
  | .Auto => "auto"
  | .Required => "required"

def encodeToolChoiceOptions (o : ToolChoiceOptions) : Json := Json.str o.token

def decodeToolChoiceOptions : Json → Option ToolChoiceOptions
  | Json.str s =>
    if s = "none" then some .None
    else if s = "auto" then some .Auto
    else if s = "required" then some .Required
    else none
  | _ => none

/-- `FunctionToolType`, `#[serde(rename_all = "lowercase")]`, with
`#[default] Function`. -/
inductive FunctionToolType where
  | Function

def FunctionToolType.token : FunctionToolType → String
  | .Function => "function"

def encodeFunctionToolType (t : FunctionToolType) : Json := Json.str t.token

def decodeFunctionToolType : Json → Option FunctionToolType
  | Json.str s => if s = "function" then some .Function else none
  | _ => none

/-- `ResponseTruncation`, `#[serde(rename_all = "lowercase")]`, with
`#[default] Disabled`. -/
inductive ResponseTruncation where
  | Auto
  | Disabled

def ResponseTruncation.token : ResponseTruncation → String
  | .Auto => "auto"
  | .Disabled => "disabled"

def encodeResponseTruncation (t : ResponseTruncation) : Json := Json.str t.token

def decodeResponseTruncation : Json → Option ResponseTruncation
  | Json.str s =>
    if s = "auto" then some .Auto
    else if s = "disabled" then some .Disabled
    else none
  | _ => none

/-- `MessageType`, `#[serde(rename_all = "lowercase")]`, with
`#[default] Message`. -/
inductive MessageType where
  | Message

def MessageType.token : MessageType → String
  | .Message => "message"

def encodeMessageType (t : MessageType) : Json := Json.str t.token

def decodeMessageType : Json → Option MessageType
  | Json.str s => if s = "message" then some .Message else none
  | _ => none

/-- `EasyInputMessageRole`: the derive carries no `rename_all` attribute,
so serde serializes the variant identifiers verbatim: `"User"`,
`"Assistant"`, `"System"`, `"Developer"`. -/
inductive EasyInputMessageRole where
  | User
  | Assistant
  | System
  | Developer

def EasyInputMessageRole.token : EasyInputMessageRole → String
  | .User => "User"
  | .Assistant => "Assistant"
  | .System => "System"
  | .Developer => "Developer"

def encodeEasyInputMessageRole (r : EasyInputMessageRole) : Json := Json.str r.token

def decodeEasyInputMessageRole : Json → Option EasyInputMessageRole
  | Json.str s =>
    if s = "User" then some .User
    else if s = "Assistant" then some .Assistant
    else if s = "System" then some .System
    else if s = "Developer" then some .Developer
    else none
  | _ => none

/-- `InputMessageRole`: the derive carries no `rename_all` attribute, so
serde serializes the variant identifiers verbatim. -/
inductive InputMessageRole where
  | User
  | System
  | Developer

def InputMessageRole.token : InputMessageRole → String
  | .User => "User"
  | .System => "System"
  | .Developer => "Developer"

def encodeInputMessageRole (r : InputMessageRole) : Json := Json.str r.token

def decodeInputMessageRole : Json → Option InputMessageRole
  | Json.str s =>
    if s = "User" then some .User
    else if s = "System" then some .System
    else if s = "Developer" then some .Developer
    else none
  | _ => none

/-- `ImageDetail`, `#[serde(rename_all = "lowercase")]`, with
`#[default] Auto`. -/
inductive ImageDetail where
  | High
  | Low
  | Auto

def ImageDetail.token : ImageDetail → String
  | .High => "high"
  | .Low => "low"
  | .Auto => "auto"

def encodeImageDetail (d : ImageDetail) : Json := Json.str d.token

def decodeImageDetail : Json → Option ImageDetail
  | Json.str s =>
    if s = "high" then some .High
    else if s = "low" then some .Low
    else if s = "auto" then some .Auto
    else none
  | _ => none

/-! Round trips of the fieldless enums. -/

theorem decodeReasoningEffort_roundtrip (e : ReasoningEffort) :
    decodeReasoningEffort (encodeReasoningEffort e) = some e := by cases e <;> rfl

theorem decodeMessageStatus_roundtrip (s : MessageStatus) :
    decodeMessageStatus (encodeMessageStatus s) = some s := by cases s <;> rfl

theorem decodeGenerateSummary_roundtrip (g : GenerateSummary) :
    decodeGenerateSummary (encodeGenerateSummary g) = some g := by cases g <;> rfl

theorem decodeEnvironment_roundtrip (e : Environment) :
    decodeEnvironment (encodeEnvironment e) = some e := by cases e <;> rfl

theorem decodeLocationType_roundtrip (t : LocationType) :
    decodeLocationType (encodeLocationType t) = some t := by cases t; rfl

theorem decodeToolChoiceOptions_roundtrip (o : ToolChoiceOptions) :
    decodeToolChoiceOptions (encodeToolChoiceOptions o) = some o := by cases o <;> rfl

theorem decodeFunctionToolType_roundtrip (t : FunctionToolType) :
    decodeFunctionToolType (encodeFunctionToolType t) = some t := by cases t; rfl

theorem decodeResponseTruncation_roundtrip (t : ResponseTruncation) :
    decodeResponseTruncation (encodeResponseTruncation t) = some t := by cases t <;> rfl

theorem decodeMessageType_roundtrip (t : MessageType) :
    decodeMessageType (encodeMessageType t) = some t := by cases t; rfl

theorem decodeEasyInputMessageRole_roundtrip (r : EasyInputMessageRole) :
    decodeEasyInputMessageRole (encodeEasyInputMessageRole r) = some r := by cases r <;> rfl

theorem decodeInputMessageRole_roundtrip (r : InputMessageRole) :
    decodeInputMessageRole (encodeInputMessageRole r) = some r := by cases r <;> rfl

theorem decodeImageDetail_roundtrip (d : ImageDetail) :
    decodeImageDetail (encodeImageDetail d) = some d := by cases d <;> rfl

/-! ## Structs and unions of `src/async-openai/src/types/response.rs`

Each struct `X` has `encodeXFields` giving serde's bindings in field
declaration order, and `decodeXFields` reading a field map (unknown keys
are ignored, as serde does by default). Internally tagged enums strip the
`type` binding before handing the map to the variant payload; since no
payload struct below declares a field named `type`, handing over the full
map is observably the same and is what the decoders here do. -/

/-- `Reasoning`: both fields optional with skip-if-none. -/
structure Reasoning where
  effort : Option ReasoningEffort
  generate_summary : Option GenerateSummary

def encodeReasoningFields (r : Reasoning) : List (String × Json) :=
  optField "effort" (r.effort.map encodeReasoningEffort) ++
  optField "generate_summary" (r.generate_summary.map encodeGenerateSummary)

def encodeReasoning (r : Reasoning) : Json := Json.obj (encodeReasoningFields r)

def decodeReasoningFields (fields : List (String × Json)) : Option Reasoning :=
  match decodeOptField "effort" decodeReasoningEffort fields,
        decodeOptField "generate_summary" decodeGenerateSummary fields with
  | some e, some g => some ⟨e, g⟩
  | _, _ => none

def decodeReasoning : Json → Option Reasoning
  | Json.obj fields => decodeReasoningFields fields
  | _ => none

/-- `TextResponseFormat`: one required field `format`. -/
structure TextResponseFormat where
  format : ResponseFormat

def encodeTextResponseFormat (t : TextResponseFormat) : Json :=
  Json.obj [("format", encodeResponseFormat t.format)]

def decodeTextResponseFormat : Json → Option TextResponseFormat
  | Json.obj fields =>
    match decodeField "format" decodeResponseFormat fields with
    | some f => some ⟨f⟩
    | none => none
  | _ => none

/-- `FileSearchTool`: `vector_store_ids` required, the rest optional with
skip-if-none. -/
structure FileSearchTool where
  vector_store_ids : List String
  max_num_results : Option Nat
  filters : Option VectorStoreSearchFilter
  ranking_options : Option RankingOptions

def encodeFileSearchToolFields (t : FileSearchTool) : List (String × Json) :=
  [("vector_store_ids", Json.arr (t.vector_store_ids.map Json.str))] ++
  optField "max_num_results" (t.max_num_results.map (fun n => Json.num n)) ++
  optField "filters" (t.filters.map encodeVectorStoreSearchFilter) ++
  optField "ranking_options" (t.ranking_options.map encodeRankingOptions)

def encodeFileSearchTool (t : FileSearchTool) : Json :=
  Json.obj (encodeFileSearchToolFields t)

def decodeStringList : Json → Option (List String)
  | Json.arr js => decodeList decodeString js
  | _ => none

def decodeFileSearchToolFields (fields : List (String × Json)) : Option FileSearchTool :=
  match decodeField "vector_store_ids" decodeStringList fields,
        decodeOptField "max_num_results" decodeNat fields,
        decodeOptField "filters" decodeVectorStoreSearchFilter fields,
        decodeOptField "ranking_options" decodeRankingOptions fields with
  | some v, some m, some f, some r => some ⟨v, m, f, r⟩
  | _, _, _, _ => none

def decodeFileSearchTool : Json → Option FileSearchTool
  | Json.obj fields => decodeFileSearchToolFields fields
  | _ => none

/-- `ComputerTool`: all three fields required. -/
structure ComputerTool where
  display_width : Nat
  display_height : Nat
  environment : Environment

def encodeComputerToolFields (t : ComputerTool) : List (String × Json) :=
  [("display_width", Json.num t.display_width),
   ("display_height", Json.num t.display_height),
   ("environment", encodeEnvironment t.environment)]

def encodeComputerTool (t : ComputerTool) : Json :=
  Json.obj (encodeComputerToolFields t)

def decodeComputerToolFields (fields : List (String × Json)) : Option ComputerTool :=
  match decodeField "display_width" decodeNat fields,
        decodeField "display_height" decodeNat fields,
        decodeField "environment" decodeEnvironment fields with
  | some w, some h, some e => some ⟨w, h, e⟩
  | _, _, _ => none

def decodeComputerTool : Json → Option ComputerTool
  | Json.obj fields => decodeComputerToolFields fields
  | _ => none

/-- `WebSearchToolUserLocation`: `type` required; `country`, `region`,
`city`, `timezone` are `Option<String>` without a skip attribute, so an
unset one serializes as an explicit `null`. -/
structure WebSearchToolUserLocation where
  type : LocationType
  country : Option String
  region : Option String
  city : Option String
  timezone : Option String

def encodeWebSearchToolUserLocationFields (l : WebSearchToolUserLocation) :
    List (String × Json) :=
  [("type", encodeLocationType l.type),
   ("country", encodeNullable Json.str l.country),
   ("region", encodeNullable Json.str l.region),
   ("city", encodeNullable Json.str l.city),
   ("timezone", encodeNullable Json.str l.timezone)]

def encodeWebSearchToolUserLocation (l : WebSearchToolUserLocation) : Json :=
  Json.obj (encodeWebSearchToolUserLocationFields l)

def decodeWebSearchToolUserLocationFields (fields : List (String × Json)) :
    Option WebSearchToolUserLocation :=
  match decodeField "type" decodeLocationType fields,
        decodeOptField "country" decodeString fields,
        decodeOptField "region" decodeString fields,
        decodeOptField "city" decodeString fields,
        decodeOptField "timezone" decodeString fields with
  | some t, some c, some r, some ci, some tz => some ⟨t, c, r, ci, tz⟩
  | _, _, _, _, _ => none

def decodeWebSearchToolUserLocation : Json → Option WebSearchToolUserLocation
  | Json.obj fields => decodeWebSearchToolUserLocationFields fields
  | _ => none

/-- `WebSearchTool`: its single field `user_location` is `Option` without
a skip attribute, so an unset one serializes as an explicit `null`. -/
structure WebSearchTool where
  user_location : Option WebSearchToolUserLocation

def encodeWebSearchToolFields (t : WebSearchTool) : List (String × Json) :=
  [("user_location", encodeNullable encodeWebSearchToolUserLocation t.user_location)]

def encodeWebSearchTool (t : WebSearchTool) : Json :=
  Json.obj (encodeWebSearchToolFields t)

def decodeWebSearchToolFields (fields : List (String × Json)) : Option WebSearchTool :=
  match decodeOptField "user_location" decodeWebSearchToolUserLocation fields with
  | some l => some ⟨l⟩
  | none => none

def decodeWebSearchTool : Json → Option WebSearchTool
  | Json.obj fields => decodeWebSearchToolFields fields
  | _ => none

/-- `Tool`: internally tagged by `type`, `rename_all = "snake_case"`, with
the explicit rename `web_search_preview_2025_03_11`. -/
inductive Tool where
  | FileSearch (t : FileSearchTool)
  | Function (f : FunctionObject)
  | ComputerUsePreview (t : ComputerTool)
  | WebSearchPreview (t : WebSearchTool)
  | WebSearchPreview2025_03_11 (t : WebSearchTool)

def Tool.typeTag : Tool → String
  | .FileSearch _ => "file_search"
  | .Function _ => "function"
  | .ComputerUsePreview _ => "computer_use_preview"
  | .WebSearchPreview _ => "web_search_preview"
  | .WebSearchPreview2025_03_11 _ => "web_search_preview_2025_03_11"

def encodeTool : Tool → Json
  | .FileSearch t => Json.obj (("type", Json.str "file_search") :: encodeFileSearchToolFields t)
  | .Function f => Json.obj (("type", Json.str "function") :: encodeFunctionObjectFields f)
  | .ComputerUsePreview t =>
      Json.obj (("type", Json.str "computer_use_preview") :: encodeComputerToolFields t)
  | .WebSearchPreview t =>
      Json.obj (("type", Json.str "web_search_preview") :: encodeWebSearchToolFields t)
  | .WebSearchPreview2025_03_11 t =>
      Json.obj (("type", Json.str "web_search_preview_2025_03_11") :: encodeWebSearchToolFields t)

def decodeTool : Json → Option Tool
  | Json.obj fields =>
    match jsonLookup "type" fields with
    | some (Json.str s) =>
      if s = "file_search" then (decodeFileSearchToolFields fields).map Tool.FileSearch
      else if s = "function" then (decodeFunctionObjectFields fields).map Tool.Function
      else if s = "computer_use_preview" then
        (decodeComputerToolFields fields).map Tool.ComputerUsePreview
      else if s = "web_search_preview" then
        (decodeWebSearchToolFields fields).map Tool.WebSearchPreview
      else if s = "web_search_preview_2025_03_11" then
        (decodeWebSearchToolFields fields).map Tool.WebSearchPreview2025_03_11
      else none
    | _ => none
  | _ => none

/-- `ToolChoiceTypes`: internally tagged unit variants. -/
inductive ToolChoiceTypes where
  | FileSearch
  | ComputerUsePreview
  | WebSearchPreview
  | WebSearchPreview2025_03_11

def ToolChoiceTypes.typeTag : ToolChoiceTypes → String
  | .FileSearch => "file_search"
  | .ComputerUsePreview => "computer_use_preview"
  | .WebSearchPreview => "web_search_preview"
  | .WebSearchPreview2025_03_11 => "web_search_preview_2025_03_11"

def encodeToolChoiceTypes (t : ToolChoiceTypes) : Json :=
  Json.obj [("type", Json.str t.typeTag)]

def decodeToolChoiceTypes : Json → Option ToolChoiceTypes
  | Json.obj fields =>
    match jsonLookup "type" fields with
    | some (Json.str s) =>
      if s = "file_search" then some .FileSearch
      else if s = "computer_use_preview" then some .ComputerUsePreview
      else if s = "web_search_preview" then some .WebSearchPreview
      else if s = "web_search_preview_2025_03_11" then some .WebSearchPreview2025_03_11
      else none
    | _ => none
  | _ => none

/-- `ToolChoiceFunction`: plain struct, both fields required on read. -/
structure ToolChoiceFunction where
  type : FunctionToolType
  name : String

def encodeToolChoiceFunction (f : ToolChoiceFunction) : Json :=
  Json.obj [("type", encodeFunctionToolType f.type), ("name", Json.str f.name)]

def decodeToolChoiceFunction : Json → Option ToolChoiceFunction
  | Json.obj fields =>
    match decodeField "type" decodeFunctionToolType fields,
          decodeField "name" decodeString fields with
    | some t, some n => some ⟨t, n⟩
    | _, _ => none
  | _ => none

/-- `ToolChoice`: untagged; serde tries `Options`, then `Types`, then
`Function`, committing to the first structural match. -/
inductive ToolChoice where
  | Options (o : ToolChoiceOptions)
  | Types (t : ToolChoiceTypes)
  | Function (f : ToolChoiceFunction)

def encodeToolChoice : ToolChoice → Json
  | .Options o => encodeToolChoiceOptions o
  | .Types t => encodeToolChoiceTypes t
  | .Function f => encodeToolChoiceFunction f

def decodeToolChoice (j : Json) : Option ToolChoice :=
  match decodeToolChoiceOptions j with
  | some o => some (ToolChoice.Options o)
  | none =>
    match decodeToolChoiceTypes j with
    | some t => some (ToolChoice.Types t)
    | none => (decodeToolChoiceFunction j).map ToolChoice.Function

/-- `InputText`: one required field. -/
structure InputText where
  text : String

def encodeInputTextFields (t : InputText) : List (String × Json) :=
  [("text", Json.str t.text)]

def decodeInputTextFields (fields : List (String × Json)) : Option InputText :=
  match decodeField "text" decodeString fields with
  | some s => some ⟨s⟩
  | none => none

/-- `InputImage`: `image_url` and `file_id` are `Option<String>` without a
skip attribute (an unset one serializes as `null`); `detail` is required
on read, with no serde default. -/
structure InputImage where
  image_url : Option String
  file_id : Option String
  detail : ImageDetail

def encodeInputImageFields (i : InputImage) : List (String × Json) :=
  [("image_url", encodeNullable Json.str i.image_url),
   ("file_id", encodeNullable Json.str i.file_id),
   ("detail", encodeImageDetail i.detail)]

def decodeInputImageFields (fields : List (String × Json)) : Option InputImage :=
  match decodeOptField "image_url" decodeString fields,
        decodeOptField "file_id" decodeString fields,
        decodeField "detail" decodeImageDetail fields with
  | some u, some f, some d => some ⟨u, f, d⟩
  | _, _, _ => none

def decodeInputImage : Json → Option InputImage
  | Json.obj fields => decodeInputImageFields fields
  | _ => none

/-- `InputFile`: three `Option<String>` fields without skip attributes. -/
structure InputFile where
  file_id : Option String
  filename : Option String
  file_data : Option String

def encodeInputFileFields (f : InputFile) : List (String × Json) :=
  [("file_id", encodeNullable Json.str f.file_id),
   ("filename", encodeNullable Json.str f.filename),
   ("file_data", encodeNullable Json.str f.file_data)]

def decodeInputFileFields (fields : List (String × Json)) : Option InputFile :=
  match decodeOptField "file_id" decodeString fields,
        decodeOptField "filename" decodeString fields,
        decodeOptField "file_data" decodeString fields with
  | some i, some n, some d => some ⟨i, n, d⟩
  | _, _, _ => none

/-- `InputContent`: internally tagged by `type`, `rename_all =
"snake_case"`. The third variant is spelled `InpuFile` in the source, so
its tag token is `inpu_file`. -/
inductive InputContent where
  | InputText (t : InputText)
  | InputImage (i : InputImage)
  | InpuFile (f : InputFile)

def InputContent.typeTag : InputContent → String
  | .InputText _ => "input_text"
  | .InputImage _ => "input_image"
  | .InpuFile _ => "inpu_file"

def encodeInputContent : InputContent → Json
  | .InputText t => Json.obj (("type", Json.str "input_text") :: encodeInputTextFields t)
  | .InputImage i => Json.obj (("type", Json.str "input_image") :: encodeInputImageFields i)
  | .InpuFile f => Json.obj (("type", Json.str "inpu_file") :: encodeInputFileFields f)

def decodeInputContent : Json → Option InputContent
  | Json.obj fields =>
    match jsonLookup "type" fields with
    | some (Json.str s) =>
      if s = "input_text" then (decodeInputTextFields fields).map InputContent.InputText
      else if s = "input_image" then (decodeInputImageFields fields).map InputContent.InputImage
      else if s = "inpu_file" then (decodeInputFileFields fields).map InputContent.InpuFile
      else none
    | _ => none
  | _ => none

/-- `InputMessageContent`: untagged; `Text` is tried before `Array`. -/
inductive InputMessageContent where
  | Text (s : String)
  | Array (parts : List InputContent)

def encodeInputMessageContent : InputMessageContent → Json
  | .Text s => Json.str s
  | .Array parts => Json.arr (parts.map encodeInputContent)

def decodeInputContentList : Json → Option (List InputContent)
  | Json.arr js => decodeList decodeInputContent js
  | _ => none

def decodeInputMessageContent (j : Json) : Option InputMessageContent :=
  match decodeString j with
  | some s => some (InputMessageContent.Text s)
  | none => (decodeInputContentList j).map InputMessageContent.Array

/-- `EasyInputMessage`: all three fields are required on read (the builder
default on `type` is a derive_builder attribute, not a serde one). -/
structure EasyInputMessage where
  type : MessageType
  role : EasyInputMessageRole
  content : InputMessageContent

def encodeEasyInputMessageFields (m : EasyInputMessage) : List (String × Json) :=
  [("type", encodeMessageType m.type),
   ("role", encodeEasyInputMessageRole m.role),
   ("content", encodeInputMessageContent m.content)]

def encodeEasyInputMessage (m : EasyInputMessage) : Json :=
  Json.obj (encodeEasyInputMessageFields m)

def decodeEasyInputMessage : Json → Option EasyInputMessage
  | Json.obj fields =>
    match decodeField "type" decodeMessageType fields,
          decodeField "role" decodeEasyInputMessageRole fields,
          decodeField "content" decodeInputMessageContent fields with
    | some t, some r, some c => some ⟨t, r, c⟩
    | _, _, _ => none
  | _ => none

/-- `InputMessage`: all three fields required on read. -/
structure InputMessage where
  role : InputMessageRole
  status : MessageStatus
  content : List InputContent

def encodeInputMessageFields (m : InputMessage) : List (String × Json) :=
  [("role", encodeInputMessageRole m.role),
   ("status", encodeMessageStatus m.status),
   ("content", Json.arr (m.content.map encodeInputContent))]

def decodeInputMessageFields (fields : List (String × Json)) : Option InputMessage :=
  match decodeField "role" decodeInputMessageRole fields,
        decodeField "status" decodeMessageStatus fields,
        decodeField "content" decodeInputContentList fields with
  | some r, some s, some c => some ⟨r, s, c⟩
  | _, _, _ => none

/-- `Item`: internally tagged by `type`, single variant `Message`. -/
inductive Item where
  | Message (m : InputMessage)

def encodeItem : Item → Json
  | .Message m => Json.obj (("type", Json.str "message") :: encodeInputMessageFields m)

def decodeItem : Json → Option Item
  | Json.obj fields =>
    match jsonLookup "type" fields with
    | some (Json.str s) =>
      if s = "message" then (decodeInputMessageFields fields).map Item.Message
      else none
    | _ => none
  | _ => none

/-- `InputItem`: untagged; serde tries `Message`, then `Item`, then
`ItemReference`, committing to the first structural match. -/
inductive InputItem where
  | Message (m : EasyInputMessage)
  | Item (i : Item)
  | ItemReference (r : ItemReference)

def encodeInputItem : InputItem → Json
  | .Message m => encodeEasyInputMessage m
  | .Item i => encodeItem i
  | .ItemReference r => encodeItemReference r

def decodeInputItem (j : Json) : Option InputItem :=
  match decodeEasyInputMessage j with
  | some m => some (InputItem.Message m)
  | none =>
    match decodeItem j with
    | some i => some (InputItem.Item i)
    | none => (decodeItemReference j).map InputItem.ItemReference

/-- `Input`: untagged; a plain string or an array of input items. -/
inductive Input where
  | String (s : String)
  | Array (items : List InputItem)

def encodeInput : Input → Json
  | .String s => Json.str s
  | .Array items => Json.arr (items.map encodeInputItem)

def decodeInputItemList : Json → Option (List InputItem)
  | Json.arr js => decodeList decodeInputItem js
  | _ => none

def decodeInput (j : Json) : Option Input :=
  match decodeString j with
  | some s => some (Input.String s)
  | none => (decodeInputItemList j).map Input.Array

/-- `OutputMessage`: all four fields required on read. -/
structure OutputMessage where
  id : String
  type : MessageType
  role : InputMessageRole
  content : List InputContent

def encodeOutputMessage (m : OutputMessage) : Json :=
  Json.obj
    [("id", Json.str m.id),
     ("type", encodeMessageType m.type),
     ("role", encodeInputMessageRole m.role),
     ("content", Json.arr (m.content.map encodeInputContent))]

def decodeOutputMessage : Json → Option OutputMessage
  | Json.obj fields =>
    match decodeField "id" decodeString fields,
          decodeField "type" decodeMessageType fields,
          decodeField "role" decodeInputMessageRole fields,
          decodeField "content" decodeInputContentList fields with
    | some i, some t, some r, some c => some ⟨i, t, r, c⟩
    | _, _, _, _ => none
  | _ => none

/-- Modelled from the spec: the inbound `Response` entity is not defined
under `src/`; spec section 8 shows it carrying an `id` and an `output`
array of output items, which under `src/` are `OutputMessage`s. -/
structure Response where
  id : String
  output : List OutputMessage

def encodeResponse (r : Response) : Json :=
  Json.obj
    [("id", Json.str r.id),
     ("output", Json.arr (r.output.map encodeOutputMessage))]

def decodeOutputMessageList : Json → Option (List OutputMessage)
  | Json.arr js => decodeList decodeOutputMessage js
  | _ => none

def decodeResponse : Json → Option Response
  | Json.obj fields =>
    match decodeField "id" decodeString fields,
          decodeField "output" decodeOutputMessageList fields with
    | some i, some o => some ⟨i, o⟩
    | _, _ => none
  | _ => none

/-- `CreateResponse`: `model` and `input` required, everything else
optional with skip-if-none, fields serialized in declaration order. -/
structure CreateResponse where
  temperature : Option ℚ
  top_p : Option ℚ
  user : Option String
  previous_response_id : Option String
  model : String
  reasoning : Option Reasoning
  max_output_tokens : Option Nat
  instructions : Option String
  text : Option TextResponseFormat
  tools : Option (List Tool)
  tool_choice : Option ToolChoice
  truncation : Option ResponseTruncation
  input : Input

def encodeToolList (l : List Tool) : Json := Json.arr (l.map encodeTool)

def decodeToolList : Json → Option (List Tool)
  | Json.arr js => decodeList decodeTool js
  | _ => none

def encodeCreateResponseFields (r : CreateResponse) : List (String × Json) :=
  optField "temperature" (r.temperature.map Json.num) ++
  optField "top_p" (r.top_p.map Json.num) ++
  optField "user" (r.user.map Json.str) ++
  optField "previous_response_id" (r.previous_response_id.map Json.str) ++
  [("model", Json.str r.model)] ++
  optField "reasoning" (r.reasoning.map encodeReasoning) ++
  optField "max_output_tokens" (r.max_output_tokens.map (fun n => Json.num n)) ++
  optField "instructions" (r.instructions.map Json.str) ++
  optField "text" (r.text.map encodeTextResponseFormat) ++
  optField "tools" (r.tools.map encodeToolList) ++
  optField "tool_choice" (r.tool_choice.map encodeToolChoice) ++
  optField "truncation" (r.truncation.map encodeResponseTruncation) ++
  [("input", encodeInput r.input)]

def encodeCreateResponse (r : CreateResponse) : Json :=
  Json.obj (encodeCreateResponseFields r)

def decodeCreateResponseFields (fields : List (String × Json)) : Option CreateResponse :=
  match decodeOptField "temperature" decodeQ fields,
        decodeOptField "top_p" decodeQ fields,
        decodeOptField "user" decodeString fields,
        decodeOptField "previous_response_id" decodeString fields,
        decodeField "model" decodeString fields,
        decodeOptField "reasoning" decodeReasoning fields,
        decodeOptField "max_output_tokens" decodeNat fields,
        decodeOptField "instructions" decodeString fields,
        decodeOptField "text" decodeTextResponseFormat fields,
        decodeOptField "tools" decodeToolList fields,
        decodeOptField "tool_choice" decodeToolChoice fields with
  | some te, some tp, some us, some pr, some mo, some re, some ma, some ins, some tx,
      some tl, some tc =>
    match decodeOptField "truncation" decodeResponseTruncation fields,
          decodeField "input" decodeInput fields with
    | some tr, some inp => some ⟨te, tp, us, pr, mo, re, ma, ins, tx, tl, tc, tr, inp⟩
    | _, _ => none
  | _, _, _, _, _, _, _, _, _, _, _ => none

def decodeCreateResponse : Json → Option CreateResponse
  | Json.obj fields => decodeCreateResponseFields fields
  | _ => none

/-! ## Round trips -/

theorem jsonLookup_optField_self (k : String) (v : Option Json) :
    jsonLookup k (optField k v) = v := by
  cases v <;> simp [optField, jsonLookup]

theorem jsonLookup_optField_ne (k k' : String) (v : Option Json) (h : k' ≠ k) :
    jsonLookup k (optField k' v) = none := by
  cases v <;> simp [optField, jsonLookup, h]

theorem json_num_ne_null (q : ℚ) : Json.num q ≠ Json.null := fun h => Json.noConfusion h

theorem json_str_ne_null (s : String) : Json.str s ≠ Json.null := fun h => Json.noConfusion h

theorem encodeNat_ne_null (n : Nat) : (fun n : Nat => Json.num n) n ≠ Json.null :=
  fun h => Json.noConfusion h

theorem encodeReasoningEffort_ne_null (e : ReasoningEffort) :
    encodeReasoningEffort e ≠ Json.null := fun h => Json.noConfusion h

theorem encodeGenerateSummary_ne_null (g : GenerateSummary) :
    encodeGenerateSummary g ≠ Json.null := fun h => Json.noConfusion h

theorem encodeReasoning_ne_null (r : Reasoning) :
    encodeReasoning r ≠ Json.null := fun h => Json.noConfusion h

theorem encodeTextResponseFormat_ne_null (t : TextResponseFormat) :
    encodeTextResponseFormat t ≠ Json.null := fun h => Json.noConfusion h

theorem encodeVectorStoreSearchFilter_ne_null (f : VectorStoreSearchFilter) :
    encodeVectorStoreSearchFilter f ≠ Json.null := fun h => Json.noConfusion h

theorem encodeRankingOptions_ne_null (f : RankingOptions) :
    encodeRankingOptions f ≠ Json.null := fun h => Json.noConfusion h

theorem encodeWebSearchToolUserLocation_ne_null (l : WebSearchToolUserLocation) :
    encodeWebSearchToolUserLocation l ≠ Json.null := fun h => Json.noConfusion h

theorem decodeWebSearchToolUserLocation_roundtrip (l : WebSearchToolUserLocation) :
    decodeWebSearchToolUserLocation (encodeWebSearchToolUserLocation l) = some l := by
  obtain ⟨t, c, r, ci, tz⟩ := l
  cases t
  have dc := decodeOptField_nullable_eq "country" decodeString Json.str
    (encodeWebSearchToolUserLocationFields ⟨.Approximate, c, r, ci, tz⟩) c
    (by simp [encodeWebSearchToolUserLocationFields, jsonLookup_cons_skip, jsonLookup_cons_here])
    decodeString_str json_str_ne_null
  have dr := decodeOptField_nullable_eq "region" decodeString Json.str
    (encodeWebSearchToolUserLocationFields ⟨.Approximate, c, r, ci, tz⟩) r
    (by simp [encodeWebSearchToolUserLocationFields, jsonLookup_cons_skip, jsonLookup_cons_here])
    decodeString_str json_str_ne_null
  have dci := decodeOptField_nullable_eq "city" decodeString Json.str
    (encodeWebSearchToolUserLocationFields ⟨.Approximate, c, r, ci, tz⟩) ci
    (by simp [encodeWebSearchToolUserLocationFields, jsonLookup_cons_skip, jsonLookup_cons_here])
    decodeString_str json_str_ne_null
  have dtz := decodeOptField_nullable_eq "timezone" decodeString Json.str
    (encodeWebSearchToolUserLocationFields ⟨.Approximate, c, r, ci, tz⟩) tz
    (by simp [encodeWebSearchToolUserLocationFields, jsonLookup_cons_skip, jsonLookup_cons_here])
    decodeString_str json_str_ne_null
  have dt := decodeField_eq "type" decodeLocationType
    (encodeWebSearchToolUserLocationFields ⟨.Approximate, c, r, ci, tz⟩)
    (Json.str "approximate") LocationType.Approximate
    (by simp [encodeWebSearchToolUserLocationFields, jsonLookup_cons_here, encodeLocationType,
      LocationType.token]) rfl
  simp [encodeWebSearchToolUserLocation, decodeWebSearchToolUserLocation,
    decodeWebSearchToolUserLocationFields, dc, dr, dci, dtz, dt]

theorem decodeReasoning_roundtrip (r : Reasoning) :
    decodeReasoning (encodeReasoning r) = some r := by
  obtain ⟨e, g⟩ := r
  have d1 := decodeOptField_map_eq "effort" decodeReasoningEffort encodeReasoningEffort
    (encodeReasoningFields ⟨e, g⟩) e
    (by simp [encodeReasoningFields, jsonLookup_here, jsonLookup_skip, jsonLookup_optField_self,
      jsonLookup_optField_ne])
    decodeReasoningEffort_roundtrip encodeReasoningEffort_ne_null
  have d2 := decodeOptField_map_eq "generate_summary" decodeGenerateSummary encodeGenerateSummary
    (encodeReasoningFields ⟨e, g⟩) g
    (by simp [encodeReasoningFields, jsonLookup_here, jsonLookup_skip, jsonLookup_optField_self,
      jsonLookup_optField_ne])
    decodeGenerateSummary_roundtrip encodeGenerateSummary_ne_null
  simp [encodeReasoning, decodeReasoning, decodeReasoningFields, d1, d2]

theorem decodeResponseFormat_roundtrip (f : ResponseFormat) :
    decodeResponseFormat (encodeResponseFormat f) = some f := rfl

theorem decodeTextResponseFormat_roundtrip (t : TextResponseFormat) :
    decodeTextResponseFormat (encodeTextResponseFormat t) = some t := rfl

theorem decodeItemReference_roundtrip (r : ItemReference) :
    decodeItemReference (encodeItemReference r) = some r := rfl

theorem decodeFileSearchToolFields_tagged_roundtrip (t : FileSearchTool) :
    decodeFileSearchToolFields
      (("type", Json.str "file_search") :: encodeFileSearchToolFields t) = some t := by
  obtain ⟨v, m, f, r⟩ := t
  have dv := decodeField_eq "vector_store_ids" decodeStringList
    (("type", Json.str "file_search") :: encodeFileSearchToolFields ⟨v, m, f, r⟩)
    (Json.arr (v.map Json.str)) v
    (by simp [encodeFileSearchToolFields, jsonLookup_cons_here, jsonLookup_cons_skip])
    (by simp [decodeStringList, decodeList_map decodeString Json.str v (fun x _ => rfl)])
  have dm := decodeOptField_map_eq "max_num_results" decodeNat (fun n : Nat => Json.num n)
    (("type", Json.str "file_search") :: encodeFileSearchToolFields ⟨v, m, f, r⟩) m
    (by cases m <;> simp [encodeFileSearchToolFields, jsonLookup_cons_skip, jsonLookup_here,
      jsonLookup_skip, jsonLookup_optField_self, jsonLookup_optField_ne])
    decodeNat_num encodeNat_ne_null
  have df := decodeOptField_map_eq "filters" decodeVectorStoreSearchFilter
    encodeVectorStoreSearchFilter
    (("type", Json.str "file_search") :: encodeFileSearchToolFields ⟨v, m, f, r⟩) f
    (by simp [encodeFileSearchToolFields, jsonLookup_cons_skip, jsonLookup_here,
      jsonLookup_skip, jsonLookup_optField_self, jsonLookup_optField_ne])
    (fun x => rfl) encodeVectorStoreSearchFilter_ne_null
  have dr := decodeOptField_map_eq "ranking_options" decodeRankingOptions encodeRankingOptions
    (("type", Json.str "file_search") :: encodeFileSearchToolFields ⟨v, m, f, r⟩) r
    (by simp [encodeFileSearchToolFields, jsonLookup_cons_skip, jsonLookup_here,
      jsonLookup_skip, jsonLookup_optField_self, jsonLookup_optField_ne])
    (fun x => rfl) encodeRankingOptions_ne_null
  simp [decodeFileSearchToolFields, dv, dm, df, dr]

theorem decodeComputerToolFields_tagged_roundtrip (t : ComputerTool) :
    decodeComputerToolFields
      (("type", Json.str "computer_use_preview") :: encodeComputerToolFields t) = some t := by
  obtain ⟨w, h, e⟩ := t
  have dw := decodeField_eq "display_width" decodeNat
    (("type", Json.str "computer_use_preview") :: encodeComputerToolFields ⟨w, h, e⟩)
    (Json.num w) w
    (by simp [encodeComputerToolFields, jsonLookup_cons_here, jsonLookup_cons_skip])
    (decodeNat_num w)
  have dh := decodeField_eq "display_height" decodeNat
    (("type", Json.str "computer_use_preview") :: encodeComputerToolFields ⟨w, h, e⟩)
    (Json.num h) h
    (by simp [encodeComputerToolFields, jsonLookup_cons_here, jsonLookup_cons_skip])
    (decodeNat_num h)
  have de := decodeField_eq "environment" decodeEnvironment
    (("type", Json.str "computer_use_preview") :: encodeComputerToolFields ⟨w, h, e⟩)
    (encodeEnvironment e) e
    (by simp [encodeComputerToolFields, jsonLookup_cons_here, jsonLookup_cons_skip])
    (decodeEnvironment_roundtrip e)
  simp [decodeComputerToolFields, dw, dh, de]

theorem decodeWebSearchToolFields_cons_roundtrip (tag : String) (t : WebSearchTool) :
    decodeWebSearchToolFields
      (("type", Json.str tag) :: encodeWebSearchToolFields t) = some t := by
  obtain ⟨l⟩ := t
  have dl := decodeOptField_nullable_eq "user_location" decodeWebSearchToolUserLocation
    encodeWebSearchToolUserLocation
    (("type", Json.str tag) :: encodeWebSearchToolFields ⟨l⟩) l
    (by simp [encodeWebSearchToolFields, jsonLookup_cons_here, jsonLookup_cons_skip])
    decodeWebSearchToolUserLocation_roundtrip encodeWebSearchToolUserLocation_ne_null
  simp [decodeWebSearchToolFields, dl]

theorem decodeTool_roundtrip (t : Tool) : decodeTool (encodeTool t) = some t := by
  cases t with
  | FileSearch t =>
    simp [encodeTool, decodeTool, jsonLookup_cons_here,
      decodeFileSearchToolFields_tagged_roundtrip]
  | Function f => rfl
  | ComputerUsePreview t =>
    simp [encodeTool, decodeTool, jsonLookup_cons_here,
      decodeComputerToolFields_tagged_roundtrip]
  | WebSearchPreview t =>
    simp [encodeTool, decodeTool, jsonLookup_cons_here,
      decodeWebSearchToolFields_cons_roundtrip]
  | WebSearchPreview2025_03_11 t =>
    simp [encodeTool, decodeTool, jsonLookup_cons_here,
      decodeWebSearchToolFields_cons_roundtrip]

theorem decodeToolChoice_roundtrip (c : ToolChoice) :
    decodeToolChoice (encodeToolChoice c) = some c := by
  cases c with
  | Options o => cases o <;> rfl
  | Types t => cases t <;> rfl
  | Function f =>
    obtain ⟨ft, n⟩ := f
    cases ft
    rfl

theorem decodeInputContent_roundtrip (c : InputContent) :
    decodeInputContent (encodeInputContent c) = some c := by
  cases c with
  | InputText t => rfl
  | InputImage i =>
    obtain ⟨u, f, d⟩ := i
    have du := decodeOptField_nullable_eq "image_url" decodeString Json.str
      (("type", Json.str "input_image") :: encodeInputImageFields ⟨u, f, d⟩) u
      (by simp [encodeInputImageFields, jsonLookup_cons_here, jsonLookup_cons_skip])
      decodeString_str json_str_ne_null
    have df := decodeOptField_nullable_eq "file_id" decodeString Json.str
      (("type", Json.str "input_image") :: encodeInputImageFields ⟨u, f, d⟩) f
      (by simp [encodeInputImageFields, jsonLookup_cons_here, jsonLookup_cons_skip])
      decodeString_str json_str_ne_null
    have dd := decodeField_eq "detail" decodeImageDetail
      (("type", Json.str "input_image") :: encodeInputImageFields ⟨u, f, d⟩)
      (encodeImageDetail d) d
      (by simp [encodeInputImageFields, jsonLookup_cons_here, jsonLookup_cons_skip])
      (decodeImageDetail_roundtrip d)
    simp [encodeInputContent, decodeInputContent, jsonLookup_cons_here,
      decodeInputImageFields, du, df, dd]
  | InpuFile f =>
    obtain ⟨i, n, d⟩ := f
    have di := decodeOptField_nullable_eq "file_id" decodeString Json.str
      (("type", Json.str "inpu_file") :: encodeInputFileFields ⟨i, n, d⟩) i
      (by simp [encodeInputFileFields, jsonLookup_cons_here, jsonLookup_cons_skip])
      decodeString_str json_str_ne_null
    have dn := decodeOptField_nullable_eq "filename" decodeString Json.str
      (("type", Json.str "inpu_file") :: encodeInputFileFields ⟨i, n, d⟩) n
      (by simp [encodeInputFileFields, jsonLookup_cons_here, jsonLookup_cons_skip])
      decodeString_str json_str_ne_null
    have dd := decodeOptField_nullable_eq "file_data" decodeString Json.str
      (("type", Json.str "inpu_file") :: encodeInputFileFields ⟨i, n, d⟩) d
      (by simp [encodeInputFileFields, jsonLookup_cons_here, jsonLookup_cons_skip])
      decodeString_str json_str_ne_null
    simp [encodeInputContent, decodeInputContent, jsonLookup_cons_here,
      decodeInputFileFields, di, dn, dd]

theorem decodeInputContentList_roundtrip (l : List InputContent) :
    decodeInputContentList (Json.arr (l.map encodeInputContent)) = some l := by
  simp [decodeInputContentList,
    decodeList_map decodeInputContent encodeInputContent l
      (fun x _ => decodeInputContent_roundtrip x)]

theorem decodeInputMessageContent_roundtrip (c : InputMessageContent) :
    decodeInputMessageContent (encodeInputMessageContent c) = some c := by
  cases c with
  | Text s => rfl
  | Array parts =>
    simp [encodeInputMessageContent, decodeInputMessageContent, decodeString,
      decodeInputContentList_roundtrip]

theorem decodeEasyInputMessage_roundtrip (m : EasyInputMessage) :
    decodeEasyInputMessage (encodeEasyInputMessage m) = some m := by
  obtain ⟨t, r, c⟩ := m
  cases t
  have dr := decodeField_eq "role" decodeEasyInputMessageRole
    (encodeEasyInputMessageFields ⟨.Message, r, c⟩)
    (encodeEasyInputMessageRole r) r
    (by simp [encodeEasyInputMessageFields, jsonLookup_cons_here, jsonLookup_cons_skip])
    (decodeEasyInputMessageRole_roundtrip r)
  have dc := decodeField_eq "content" decodeInputMessageContent
    (encodeEasyInputMessageFields ⟨.Message, r, c⟩)
    (encodeInputMessageContent c) c
    (by simp [encodeEasyInputMessageFields, jsonLookup_cons_here, jsonLookup_cons_skip])
    (decodeInputMessageContent_roundtrip c)
  have dt := decodeField_eq "type" decodeMessageType
    (encodeEasyInputMessageFields ⟨.Message, r, c⟩)
    (Json.str "message") MessageType.Message
    (by simp [encodeEasyInputMessageFields, jsonLookup_cons_here, encodeMessageType,
      MessageType.token]) rfl
  simp [encodeEasyInputMessage, decodeEasyInputMessage, dt, dr, dc]

/-- A raw (non-shorthand) item: the `InputItem::Item` variant. -/
def InputItem.isRawItem : InputItem → Bool
  | .Item _ => true
  | _ => false

/-- Whether an `Input` contains an `InputItem::Item` variant. -/
def Input.hasRawItem : Input → Bool
  | .String _ => false
  | .Array items => items.any InputItem.isRawItem

theorem decodeInputItem_roundtrip (it : InputItem) (h : it.isRawItem = false) :
    decodeInputItem (encodeInputItem it) = some it := by
  cases it with
  | Message m =>
    simp [encodeInputItem, decodeInputItem, decodeEasyInputMessage_roundtrip m]
  | Item i => exact absurd h (by simp [InputItem.isRawItem])
  | ItemReference r => rfl

theorem decodeInput_roundtrip (i : Input) (h : i.hasRawItem = false) :
    decodeInput (encodeInput i) = some i := by
  cases i with
  | String s => rfl
  | Array items =>
    simp only [Input.hasRawItem, List.any_eq_false] at h
    simp [encodeInput, decodeInput, decodeString, decodeInputItemList,
      decodeList_map decodeInputItem encodeInputItem items
        (fun x hx => decodeInputItem_roundtrip x (by simpa using h x hx))]

theorem decodeOutputMessage_roundtrip (m : OutputMessage) :
    decodeOutputMessage (encodeOutputMessage m) = some m := by
  obtain ⟨i, t, r, c⟩ := m
  cases t
  have di := decodeField_eq "id" decodeString
    [("id", Json.str i), ("type", encodeMessageType .Message),
     ("role", encodeInputMessageRole r),
     ("content", Json.arr (c.map encodeInputContent))]
    (Json.str i) i (by simp [jsonLookup_cons_here, jsonLookup_cons_skip]) rfl
  have dt := decodeField_eq "type" decodeMessageType
    [("id", Json.str i), ("type", encodeMessageType .Message),
     ("role", encodeInputMessageRole r),
     ("content", Json.arr (c.map encodeInputContent))]
    (encodeMessageType .Message) MessageType.Message
    (by simp [jsonLookup_cons_here, jsonLookup_cons_skip]) rfl
  have dr := decodeField_eq "role" decodeInputMessageRole
    [("id", Json.str i), ("type", encodeMessageType .Message),
     ("role", encodeInputMessageRole r),
     ("content", Json.arr (c.map encodeInputContent))]
    (encodeInputMessageRole r) r
    (by simp [jsonLookup_cons_here, jsonLookup_cons_skip])
    (decodeInputMessageRole_roundtrip r)
  have dc := decodeField_eq "content" decodeInputContentList
    [("id", Json.str i), ("type", encodeMessageType .Message),
     ("role", encodeInputMessageRole r),
     ("content", Json.arr (c.map encodeInputContent))]
    (Json.arr (c.map encodeInputContent)) c
    (by simp [jsonLookup_cons_here, jsonLookup_cons_skip])
    (decodeInputContentList_roundtrip c)
  simp [encodeOutputMessage, decodeOutputMessage, di, dt, dr, dc]

theorem encodeToolList_ne_null (l : List Tool) : encodeToolList l ≠ Json.null :=
  fun h => Json.noConfusion h

theorem encodeToolChoice_ne_null (c : ToolChoice) : encodeToolChoice c ≠ Json.null := by
  cases c <;> exact fun h => Json.noConfusion h

theorem encodeResponseTruncation_ne_null (t : ResponseTruncation) :
    encodeResponseTruncation t ≠ Json.null := fun h => Json.noConfusion h

theorem decodeToolList_roundtrip (l : List Tool) :
    decodeToolList (encodeToolList l) = some l := by
  simp [encodeToolList, decodeToolList,
    decodeList_map decodeTool encodeTool l (fun x _ => decodeTool_roundtrip x)]

/-- Whether a request's input contains an `InputItem::Item` variant. -/
def CreateResponse.hasRawItem (r : CreateResponse) : Bool := r.input.hasRawItem

theorem decodeCreateResponse_roundtrip (r : CreateResponse)
    (h : r.hasRawItem = false) :
    decodeCreateResponse (encodeCreateResponse r) = some r := by
  obtain ⟨te, tp, us, pr, mo, re, ma, ins, tx, tl, tc, tr, inp⟩ := r
  have d01 := decodeOptField_map_eq "temperature" decodeQ Json.num
    (encodeCreateResponseFields ⟨te, tp, us, pr, mo, re, ma, ins, tx, tl, tc, tr, inp⟩) te
    (by simp [encodeCreateResponseFields, jsonLookup_here, jsonLookup_skip,
      jsonLookup_optField_self, jsonLookup_optField_ne, jsonLookup_cons_here,
      jsonLookup_cons_skip, jsonLookup_nil])
    decodeQ_num json_num_ne_null
  have d02 := decodeOptField_map_eq "top_p" decodeQ Json.num
    (encodeCreateResponseFields ⟨te, tp, us, pr, mo, re, ma, ins, tx, tl, tc, tr, inp⟩) tp
    (by simp [encodeCreateResponseFields, jsonLookup_here, jsonLookup_skip,
      jsonLookup_optField_self, jsonLookup_optField_ne, jsonLookup_cons_here,
      jsonLookup_cons_skip, jsonLookup_nil])
    decodeQ_num json_num_ne_null
  have d03 := decodeOptField_map_eq "user" decodeString Json.str
    (encodeCreateResponseFields ⟨te, tp, us, pr, mo, re, ma, ins, tx, tl, tc, tr, inp⟩) us
    (by simp [encodeCreateResponseFields, jsonLookup_here, jsonLookup_skip,
      jsonLookup_optField_self, jsonLookup_optField_ne, jsonLookup_cons_here,
      jsonLookup_cons_skip, jsonLookup_nil])
    decodeString_str json_str_ne_null
  have d04 := decodeOptField_map_eq "previous_response_id" decodeString Json.str
    (encodeCreateResponseFields ⟨te, tp, us, pr, mo, re, ma, ins, tx, tl, tc, tr, inp⟩) pr
    (by simp [encodeCreateResponseFields, jsonLookup_here, jsonLookup_skip,
      jsonLookup_optField_self, jsonLookup_optField_ne, jsonLookup_cons_here,
      jsonLookup_cons_skip, jsonLookup_nil])
    decodeString_str json_str_ne_null
  have d05 := decodeField_eq "model" decodeString
    (encodeCreateResponseFields ⟨te, tp, us, pr, mo, re, ma, ins, tx, tl, tc, tr, inp⟩)
    (Json.str mo) mo
    (by simp [encodeCreateResponseFields, jsonLookup_here, jsonLookup_skip,
      jsonLookup_optField_self, jsonLookup_optField_ne, jsonLookup_cons_here,
      jsonLookup_cons_skip, jsonLookup_nil]) rfl
  have d06 := decodeOptField_map_eq "reasoning" decodeReasoning encodeReasoning
    (encodeCreateResponseFields ⟨te, tp, us, pr, mo, re, ma, ins, tx, tl, tc, tr, inp⟩) re
    (by simp [encodeCreateResponseFields, jsonLookup_here, jsonLookup_skip,
      jsonLookup_optField_self, jsonLookup_optField_ne, jsonLookup_cons_here,
      jsonLookup_cons_skip, jsonLookup_nil])
    decodeReasoning_roundtrip encodeReasoning_ne_null
  have d07 := decodeOptField_map_eq "max_output_tokens" decodeNat (fun n : Nat => Json.num n)
    (encodeCreateResponseFields ⟨te, tp, us, pr, mo, re, ma, ins, tx, tl, tc, tr, inp⟩) ma
    (by cases ma <;> simp [encodeCreateResponseFields, jsonLookup_here, jsonLookup_skip,
      jsonLookup_optField_self, jsonLookup_optField_ne, jsonLookup_cons_here,
      jsonLookup_cons_skip, jsonLookup_nil])
    decodeNat_num encodeNat_ne_null
  have d08 := decodeOptField_map_eq "instructions" decodeString Json.str
    (encodeCreateResponseFields ⟨te, tp, us, pr, mo, re, ma, ins, tx, tl, tc, tr, inp⟩) ins
    (by simp [encodeCreateResponseFields, jsonLookup_here, jsonLookup_skip,
      jsonLookup_optField_self, jsonLookup_optField_ne, jsonLookup_cons_here,
      jsonLookup_cons_skip, jsonLookup_nil])
    decodeString_str json_str_ne_null
  have d09 := decodeOptField_map_eq "text" decodeTextResponseFormat encodeTextResponseFormat
    (encodeCreateResponseFields ⟨te, tp, us, pr, mo, re, ma, ins, tx, tl, tc, tr, inp⟩) tx
    (by simp [encodeCreateResponseFields, jsonLookup_here, jsonLookup_skip,
      jsonLookup_optField_self, jsonLookup_optField_ne, jsonLookup_cons_here,
      jsonLookup_cons_skip, jsonLookup_nil])
    decodeTextResponseFormat_roundtrip encodeTextResponseFormat_ne_null
  have d10 := decodeOptField_map_eq "tools" decodeToolList encodeToolList
    (encodeCreateResponseFields ⟨te, tp, us, pr, mo, re, ma, ins, tx, tl, tc, tr, inp⟩) tl
    (by simp [encodeCreateResponseFields, jsonLookup_here, jsonLookup_skip,
      jsonLookup_optField_self, jsonLookup_optField_ne, jsonLookup_cons_here,
      jsonLookup_cons_skip, jsonLookup_nil])
    decodeToolList_roundtrip encodeToolList_ne_null
  have d11 := decodeOptField_map_eq "tool_choice" decodeToolChoice encodeToolChoice
    (encodeCreateResponseFields ⟨te, tp, us, pr, mo, re, ma, ins, tx, tl, tc, tr, inp⟩) tc
    (by simp [encodeCreateResponseFields, jsonLookup_here, jsonLookup_skip,
      jsonLookup_optField_self, jsonLookup_optField_ne, jsonLookup_cons_here,
      jsonLookup_cons_skip, jsonLookup_nil])
    decodeToolChoice_roundtrip encodeToolChoice_ne_null
  have d12 := decodeOptField_map_eq "truncation" decodeResponseTruncation
    encodeResponseTruncation
    (encodeCreateResponseFields ⟨te, tp, us, pr, mo, re, ma, ins, tx, tl, tc, tr, inp⟩) tr
    (by simp [encodeCreateResponseFields, jsonLookup_here, jsonLookup_skip,
      jsonLookup_optField_self, jsonLookup_optField_ne, jsonLookup_cons_here,
      jsonLookup_cons_skip, jsonLookup_nil])
    decodeResponseTruncation_roundtrip encodeResponseTruncation_ne_null
  have d13 := decodeField_eq "input" decodeInput
    (encodeCreateResponseFields ⟨te, tp, us, pr, mo, re, ma, ins, tx, tl, tc, tr, inp⟩)
    (encodeInput inp) inp
    (by simp [encodeCreateResponseFields, jsonLookup_here, jsonLookup_skip,
      jsonLookup_optField_self, jsonLookup_optField_ne, jsonLookup_cons_here,
      jsonLookup_cons_skip, jsonLookup_nil])
    (decodeInput_roundtrip inp (by simpa [CreateResponse.hasRawItem] using h))
  simp [encodeCreateResponse, decodeCreateResponse, decodeCreateResponseFields,
    d01, d02, d03, d04, d05, d06, d07, d08, d09, d10, d11, d12, d13]

theorem decodeResponse_roundtrip (r : Response) :
    decodeResponse (encodeResponse r) = some r := by
  obtain ⟨i, o⟩ := r
  have di := decodeField_eq "id" decodeString
    [("id", Json.str i), ("output", Json.arr (o.map encodeOutputMessage))]
    (Json.str i) i (by simp [jsonLookup_cons_here, jsonLookup_cons_skip]) rfl
  have dout := decodeField_eq "output" decodeOutputMessageList
    [("id", Json.str i), ("output", Json.arr (o.map encodeOutputMessage))]
    (Json.arr (o.map encodeOutputMessage)) o
    (by simp [jsonLookup_cons_here, jsonLookup_cons_skip])
    (by simp [decodeOutputMessageList,
      decodeList_map decodeOutputMessage encodeOutputMessage o
        (fun x _ => decodeOutputMessage_roundtrip x)])
  simp [encodeResponse, decodeResponse, di, dout]

/-! ## Builders

Every builder in the source is declared with the struct-level
`#[builder(setter(into, strip_option), default)]` and
`#[builder(build_fn(error = "OpenAIError"))]`. With the struct-level
`default`, derive_builder's generated `build()` falls back to the target
struct's `Default` value for every field that was never set, so `build()`
never reaches the `UninitializedField` error path. A builder state is the
generated struct of `Option`-wrapped fields (`setter(strip_option)` wraps
an `Option` target field one level deeper); `none` is "never set". -/

/-- Modelled from the spec: `Input` declares no `Default` implementation
under `src/`, although `CreateResponse` derives `Default`; spec section 3
says a plain string is the shorthand input form, so the default input is
the default (empty) string. -/
def Input.defaultVal : Input := Input.String ""

/-- `Default` for `CreateResponse` as derived: each field's own default. -/
def CreateResponse.defaultVal : CreateResponse :=
  { temperature := none, top_p := none, user := none, previous_response_id := none,
    model := "", reasoning := none, max_output_tokens := none, instructions := none,
    text := none, tools := none, tool_choice := none, truncation := none,
    input := Input.defaultVal }

/-- Builder state generated as `CreateResponseArgs`. -/
structure CreateResponseArgs where
  temperature : Option (Option ℚ) := none
  top_p : Option (Option ℚ) := none
  user : Option (Option String) := none
  previous_response_id : Option (Option String) := none
  model : Option String := none
  reasoning : Option (Option Reasoning) := none
  max_output_tokens : Option (Option Nat) := none
  instructions : Option (Option String) := none
  text : Option (Option TextResponseFormat) := none
  tools : Option (Option (List Tool)) := none
  tool_choice : Option (Option ToolChoice) := none
  truncation : Option (Option ResponseTruncation) := none
  input : Option Input := none

/-- `CreateResponseArgs::build`: unset fields fall back to the target's
`Default` (struct-level `#[builder(default)]`), so finalization always
succeeds. -/
def CreateResponseArgs.build (a : CreateResponseArgs) : Except OpenAIError CreateResponse :=
  Except.ok
    { temperature := a.temperature.getD CreateResponse.defaultVal.temperature
      top_p := a.top_p.getD CreateResponse.defaultVal.top_p
      user := a.user.getD CreateResponse.defaultVal.user
      previous_response_id :=
        a.previous_response_id.getD CreateResponse.defaultVal.previous_response_id
      model := a.model.getD CreateResponse.defaultVal.model
      reasoning := a.reasoning.getD CreateResponse.defaultVal.reasoning
      max_output_tokens := a.max_output_tokens.getD CreateResponse.defaultVal.max_output_tokens
      instructions := a.instructions.getD CreateResponse.defaultVal.instructions
      text := a.text.getD CreateResponse.defaultVal.text
      tools := a.tools.getD CreateResponse.defaultVal.tools
      tool_choice := a.tool_choice.getD CreateResponse.defaultVal.tool_choice
      truncation := a.truncation.getD CreateResponse.defaultVal.truncation
      input := a.input.getD CreateResponse.defaultVal.input }

/-- `Default` for `FileSearchTool` as derived. -/
def FileSearchTool.defaultVal : FileSearchTool :=
  { vector_store_ids := [], max_num_results := none, filters := none,
    ranking_options := none }

/-- Builder state generated as `FileSearchToolArgs`. -/
structure FileSearchToolArgs where
  vector_store_ids : Option (List String) := none
  max_num_results : Option (Option Nat) := none
  filters : Option (Option VectorStoreSearchFilter) := none
  ranking_options : Option (Option RankingOptions) := none

/-- `FileSearchToolArgs::build`: always succeeds via the struct-level
builder default. -/
def FileSearchToolArgs.build (a : FileSearchToolArgs) : Except OpenAIError FileSearchTool :=
  Except.ok
    { vector_store_ids := a.vector_store_ids.getD FileSearchTool.defaultVal.vector_store_ids
      max_num_results := a.max_num_results.getD FileSearchTool.defaultVal.max_num_results
      filters := a.filters.getD FileSearchTool.defaultVal.filters
      ranking_options := a.ranking_options.getD FileSearchTool.defaultVal.ranking_options }

/-- Modelled from the spec: `Environment` declares no `Default` under
`src/`, although `ComputerTool` derives `Default`; the first declared
variant is taken as the default value. -/
def Environment.defaultVal : Environment := Environment.Mac

/-- `Default` for `ComputerTool` as derived: numeric fields default to 0. -/
def ComputerTool.defaultVal : ComputerTool :=
  { display_width := 0, display_height := 0, environment := Environment.defaultVal }

/-- Builder state generated as `ComputerToolArgs`. -/
structure ComputerToolArgs where
  display_width : Option Nat := none
  display_height : Option Nat := none
  environment : Option Environment := none

/-- `ComputerToolArgs::build`: always succeeds via the struct-level
builder default. -/
def ComputerToolArgs.build (a : ComputerToolArgs) : Except OpenAIError ComputerTool :=
  Except.ok
    { display_width := a.display_width.getD ComputerTool.defaultVal.display_width
      display_height := a.display_height.getD ComputerTool.defaultVal.display_height
      environment := a.environment.getD ComputerTool.defaultVal.environment }

/-- `Default` for `WebSearchToolUserLocation` as derived: `type` defaults
to the `#[default]` variant `Approximate`. -/
def WebSearchToolUserLocation.defaultVal : WebSearchToolUserLocation :=
  { type := LocationType.Approximate, country := none, region := none, city := none,
    timezone := none }

/-- Builder state generated as `WebSearchToolUserLocationArgs`. -/
structure WebSearchToolUserLocationArgs where
  type : Option LocationType := none
  country : Option (Option String) := none
  region : Option (Option String) := none
  city : Option (Option String) := none
  timezone : Option (Option String) := none

/-- `WebSearchToolUserLocationArgs::build`: always succeeds via the
struct-level builder default. -/
def WebSearchToolUserLocationArgs.build (a : WebSearchToolUserLocationArgs) :
    Except OpenAIError WebSearchToolUserLocation :=
  Except.ok
    { type := a.type.getD WebSearchToolUserLocation.defaultVal.type
      country := a.country.getD WebSearchToolUserLocation.defaultVal.country
      region := a.region.getD WebSearchToolUserLocation.defaultVal.region
      city := a.city.getD WebSearchToolUserLocation.defaultVal.city
      timezone := a.timezone.getD WebSearchToolUserLocation.defaultVal.timezone }

/-! ## Dispatch -/

/-- `Responses::create` of `src/async-openai/src/responses.rs`: the guard
rejects a request whose `stream` flag is `Some(true)` with
`InvalidArgument` before the single `client.post("/responses", request)`
call. Modelled from the spec where the source leaves gaps: the
`CreateResponse` snapshot under `src/` does not declare the `stream` field
that `create` reads, so the streaming flag is passed alongside the
request; the HTTP transport collaborator (spec section 6) is an explicit
function argument, and the result is paired with the number of transport
invocations. -/
def Responses.create (post : Json → Except OpenAIError Json)
    (stream : Option Bool) (request : CreateResponse) :
    Except OpenAIError Json × Nat :=
  if stream = some true then
    (Except.error (OpenAIError.InvalidArgument
      "When stream is true, use Responses::create_stream"), 0)
  else
    (post (encodeCreateResponse request), 1)

/-! ## Claims -/

/-- C1 (amended): builder finalization never fails with
`MissingRequiredField`: every builder carries the struct-level
`#[builder(default)]`, so `build()` succeeds for every builder state; in
particular with `model`, `vector_store_ids`,
`display_width`/`display_height` never set, the built value carries the
defaulted empty string, empty list and zeroes instead of an error. -/
theorem claim_C1_builders_apply_defaults :
    (∀ a : CreateResponseArgs, ∃ r, CreateResponseArgs.build a = Except.ok r) ∧
    (∀ a : FileSearchToolArgs, ∃ t, FileSearchToolArgs.build a = Except.ok t) ∧
    (∀ a : ComputerToolArgs, ∃ t, ComputerToolArgs.build a = Except.ok t) ∧
    (∀ a : WebSearchToolUserLocationArgs, ∃ l,
      WebSearchToolUserLocationArgs.build a = Except.ok l) ∧
    (∃ r, CreateResponseArgs.build {} = Except.ok r ∧ r.model = "") ∧
    (∃ t, FileSearchToolArgs.build {} = Except.ok t ∧ t.vector_store_ids = []) ∧
    (∃ t, ComputerToolArgs.build {} = Except.ok t ∧
      t.display_width = 0 ∧ t.display_height = 0) :=
  ⟨fun _ => ⟨_, rfl⟩, fun _ => ⟨_, rfl⟩, fun _ => ⟨_, rfl⟩, fun _ => ⟨_, rfl⟩,
   ⟨_, rfl, rfl⟩, ⟨_, rfl, rfl⟩, ⟨_, rfl, rfl, rfl⟩⟩

/-- C1 counterexample: `build()` on a `CreateResponseArgs` with `model`
never set does not return `MissingRequiredField("model")` — it succeeds. -/
theorem claim_C1_counterexample :
    CreateResponseArgs.build {} ≠
      Except.error (OpenAIError.MissingRequiredField "model") :=
  fun h => Except.noConfusion h

/-- C2: a request whose streaming flag is `Some(true)` is rejected with
`InvalidArgument` while the transport collaborator is invoked zero times;
with the flag unset (`None`) or `Some(false)`, the transport is invoked
exactly once with the serialized request and its result is returned. -/
theorem claim_C2_stream_guard (post : Json → Except OpenAIError Json)
    (request : CreateResponse) :
    Responses.create post (some true) request =
      (Except.error (OpenAIError.InvalidArgument
        "When stream is true, use Responses::create_stream"), 0) ∧
    Responses.create post none request = (post (encodeCreateResponse request), 1) ∧
    Responses.create post (some false) request = (post (encodeCreateResponse request), 1) :=
  ⟨rfl, rfl, rfl⟩

/-- C3: the payload `{"role":"user","content":"hi"}` does not decode to
the `Message` variant of `InputItem`; it fails to decode altogether,
because `EasyInputMessage` requires a `type` key on read and its role enum
accepts only the capitalized token `"User"` — although the source doc
comment promises the lowercase roles `user`/`assistant`/`system`/
`developer`. A payload with `"type":"message"` and the capitalized role
does decode to the `Message` variant. -/
theorem claim_C3_payload_rejected :
    decodeInputItem (Json.obj [("role", Json.str "user"), ("content", Json.str "hi")]) =
      none ∧
    decodeInputItem (Json.obj [("type", Json.str "message"), ("role", Json.str "user"),
      ("content", Json.str "hi")]) = none ∧
    decodeInputItem (Json.obj [("type", Json.str "message"), ("role", Json.str "User"),
      ("content", Json.str "hi")]) =
      some (InputItem.Message ⟨MessageType.Message, EasyInputMessageRole.User,
        InputMessageContent.Text "hi"⟩) :=
  ⟨rfl, rfl, rfl⟩

/-- C4 counterexample: an unset `WebSearchTool.user_location` is not
omitted from the serialized object — the key is emitted with an explicit
`null`, because the field carries no skip attribute. -/
theorem claim_C4_counterexample :
    encodeWebSearchTool ⟨none⟩ = Json.obj [("user_location", Json.null)] := rfl

/-- C4 (amended): fields annotated
`#[serde(skip_serializing_if = "Option::is_none")]` are omitted when unset
(all `Reasoning` and `FileSearchTool` optionals), but
`WebSearchTool.user_location`, the four optional
`WebSearchToolUserLocation` fields and `InputImage.image_url`/`file_id`
carry no skip attribute and serialize as explicit `null` when unset. -/
theorem claim_C4_skip_vs_null :
    (encodeReasoning ⟨none, none⟩ = Json.obj []) ∧
    (∀ ids : List String, encodeFileSearchTool ⟨ids, none, none, none⟩ =
      Json.obj [("vector_store_ids", Json.arr (ids.map Json.str))]) ∧
    (∀ loc : Option WebSearchToolUserLocation, encodeWebSearchTool ⟨loc⟩ =
      Json.obj [("user_location", encodeNullable encodeWebSearchToolUserLocation loc)]) ∧
    (encodeWebSearchToolUserLocation ⟨LocationType.Approximate, none, none, none, none⟩ =
      Json.obj [("type", Json.str "approximate"), ("country", Json.null),
        ("region", Json.null), ("city", Json.null), ("timezone", Json.null)]) ∧
    (∀ d : ImageDetail, encodeInputImageFields ⟨none, none, d⟩ =
      [("image_url", Json.null), ("file_id", Json.null), ("detail", encodeImageDetail d)]) :=
  ⟨rfl, fun _ => rfl, fun _ => rfl, rfl, fun _ => rfl⟩

/-- The request refuting the round-trip claim: its input carries an
`InputItem::Item` element. -/
def rawItemRequest : CreateResponse :=
  { temperature := none, top_p := none, user := none, previous_response_id := none,
    model := "gpt-4o", reasoning := none, max_output_tokens := none, instructions := none,
    text := none, tools := none, tool_choice := none, truncation := none,
    input := Input.Array [InputItem.Item (Item.Message
      ⟨InputMessageRole.User, MessageStatus.InProgress, [InputContent.InputText ⟨"hi"⟩]⟩)] }

/-- C5 counterexample: the round trip is not the identity on every
`CreateResponse`: encoding a request whose input holds an
`InputItem::Item` and decoding it back yields the untagged `Message`
variant instead (the `EasyInputMessage` shape matches first), so the
decoded value differs from the original. -/
theorem claim_C5_counterexample :
    decodeCreateResponse (encodeCreateResponse rawItemRequest) ≠ some rawItemRequest := by
  intro h
  have h2 : some false = some true := by
    calc some false
        = Option.map CreateResponse.hasRawItem
            (decodeCreateResponse (encodeCreateResponse rawItemRequest)) := rfl
      _ = Option.map CreateResponse.hasRawItem (some rawItemRequest) := by rw [h]
      _ = some true := rfl
  simp at h2

/-- C5 (amended): decoding after encoding is the identity on every
`Response`, and on every `CreateResponse` whose input contains no
`InputItem::Item` element (on one that does, the decoder re-reads the item
as the untagged `Message` variant). -/
theorem claim_C5_roundtrip :
    (∀ resp : Response, decodeResponse (encodeResponse resp) = some resp) ∧
    (∀ r : CreateResponse, r.hasRawItem = false →
      decodeCreateResponse (encodeCreateResponse r) = some r) :=
  ⟨decodeResponse_roundtrip, decodeCreateResponse_roundtrip⟩

/-- A request with only the required fields set, used as a concrete
round-trip instance. -/
def simpleRequest : CreateResponse :=
  { temperature := none, top_p := none, user := none, previous_response_id := none,
    model := "gpt-4o-mini", reasoning := none, max_output_tokens := none,
    instructions := none, text := none, tools := none, tool_choice := none,
    truncation := none, input := Input.String "hi" }

theorem claim_C5_witness :
    decodeResponse (encodeResponse ⟨"resp_123", []⟩) = some ⟨"resp_123", []⟩ ∧
    decodeCreateResponse (encodeCreateResponse simpleRequest) = some simpleRequest :=
  ⟨claim_C5_roundtrip.1 ⟨"resp_123", []⟩, claim_C5_roundtrip.2 simpleRequest rfl⟩

/-- The `type` tokens recognized by the `Tool` decoder. -/
def recognizedToolTags : List String :=
  ["file_search", "function", "computer_use_preview", "web_search_preview",
   "web_search_preview_2025_03_11"]

/-- C6: a `Tool` object whose `type` token is recognized decodes, when it
decodes at all, to the variant matching that token — and every encoded
tool does decode to its own variant — while an object whose `type` token
is outside the vocabulary never decodes (serde's unknown-variant error,
surfaced as `SchemaMismatch`). -/
theorem claim_C6_tool_tag_dispatch :
    (∀ fields s, jsonLookup "type" fields = some (Json.str s) →
      s ∉ recognizedToolTags → decodeTool (Json.obj fields) = none) ∧
    (∀ fields t, decodeTool (Json.obj fields) = some t →
      jsonLookup "type" fields = some (Json.str t.typeTag)) ∧
    (∀ t : Tool, decodeTool (encodeTool t) = some t) := by
  refine ⟨?_, ?_, decodeTool_roundtrip⟩
  · intro fields s h hs
    simp only [recognizedToolTags, List.mem_cons, List.not_mem_nil, or_false,
      not_or] at hs
    obtain ⟨h1, h2, h3, h4, h5⟩ := hs
    simp [decodeTool, h, h1, h2, h3, h4, h5]
  · intro fields t h
    simp only [decodeTool] at h
    split at h
    · rename_i s heq
      rw [heq]
      split_ifs at h with c1 c2 c3 c4 c5
      · obtain ⟨x, hx, rfl⟩ := Option.map_eq_some'.mp h
        rw [c1]; rfl
      · obtain ⟨x, hx, rfl⟩ := Option.map_eq_some'.mp h
        rw [c2]; rfl
      · obtain ⟨x, hx, rfl⟩ := Option.map_eq_some'.mp h
        rw [c3]; rfl
      · obtain ⟨x, hx, rfl⟩ := Option.map_eq_some'.mp h
        rw [c4]; rfl
      · obtain ⟨x, hx, rfl⟩ := Option.map_eq_some'.mp h
        rw [c5]; rfl
    · exact Option.noConfusion h

theorem claim_C6_witness :
    decodeTool (Json.obj [("type", Json.str "retrieval")]) = none ∧
    jsonLookup "type" (("type", Json.str "computer_use_preview") ::
        encodeComputerToolFields ⟨1, 2, Environment.Mac⟩) =
      some (Json.str (Tool.typeTag (Tool.ComputerUsePreview ⟨1, 2, Environment.Mac⟩))) ∧
    decodeTool (encodeTool (Tool.ComputerUsePreview ⟨1, 2, Environment.Mac⟩)) =
      some (Tool.ComputerUsePreview ⟨1, 2, Environment.Mac⟩) :=
  ⟨claim_C6_tool_tag_dispatch.1 [("type", Json.str "retrieval")] "retrieval" rfl (by decide),
   claim_C6_tool_tag_dispatch.2.1 _ _
     (claim_C6_tool_tag_dispatch.2.2 (Tool.ComputerUsePreview ⟨1, 2, Environment.Mac⟩)),
   claim_C6_tool_tag_dispatch.2.2 (Tool.ComputerUsePreview ⟨1, 2, Environment.Mac⟩)⟩

/-- C7: a `CreateResponse` carrying only the two required fields (every
optional field unset) serializes to a JSON object holding exactly the keys
`model` and `input`, in that order, and nothing else. -/
theorem claim_C7_minimal_request_keys (model : String) (input : Input) :
    encodeCreateResponse ⟨none, none, none, none, model, none, none, none, none,
      none, none, none, input⟩ =
      Json.obj [("model", Json.str model), ("input", encodeInput input)] := rfl

/-- C8: the wire tokens diverge from the lowercase vocabulary: the role
enums carry no `rename_all` attribute, so serde emits the capitalized
variant identifiers (`"User"`, `"Assistant"`, `"Developer"`, ...), and the
file-input variant of `InputContent` is spelled `InpuFile`, so its `type`
discriminant is the token `inpu_file` — contradicting the source's own doc
comments (`user`/`assistant`/`system`/`developer`) and the external
`input_file` vocabulary. -/
theorem claim_C8_wire_tokens :
    encodeEasyInputMessageRole EasyInputMessageRole.User = Json.str "User" ∧
    encodeEasyInputMessageRole EasyInputMessageRole.Assistant = Json.str "Assistant" ∧
    encodeInputMessageRole InputMessageRole.Developer = Json.str "Developer" ∧
    (∀ f : InputFile, InputContent.typeTag (InputContent.InpuFile f) = "inpu_file") ∧
    encodeInputContent (InputContent.InpuFile ⟨none, none, none⟩) =
      Json.obj [("type", Json.str "inpu_file"), ("file_id", Json.null),
        ("filename", Json.null), ("file_data", Json.null)] :=
  ⟨rfl, rfl, rfl, fun _ => rfl, rfl⟩

/-- C9: a `WebSearchToolUserLocation` built with its `type` field never
set succeeds with the defaulted `Approximate` discriminant, encodes the
`type` key as the literal token `"approximate"`, and decoding that
encoding preserves the whole value. -/
theorem claim_C9_location_type_default (c r ci tz : Option (Option String)) :
    ∃ loc, WebSearchToolUserLocationArgs.build ⟨none, c, r, ci, tz⟩ = Except.ok loc ∧
      loc.type = LocationType.Approximate ∧
      jsonLookup "type" (encodeWebSearchToolUserLocationFields loc) =
        some (Json.str "approximate") ∧
      decodeWebSearchToolUserLocation (encodeWebSearchToolUserLocation loc) = some loc :=
  ⟨_, rfl, rfl, rfl, decodeWebSearchToolUserLocation_roundtrip _⟩

/-- C10: reading an `InputImage` requires the `detail` key even though its
doc comment says it defaults to `auto`: a field map without a `detail`
binding never decodes, and a successful decode pins the `detail` binding
to the token of the decoded value, which is always one of `high`, `low`,
`auto`. -/
theorem claim_C10_detail_required :
    (∀ fields, jsonLookup "detail" fields = none →
      decodeInputImageFields fields = none) ∧
    (∀ fields img, decodeInputImageFields fields = some img →
      jsonLookup "detail" fields = some (Json.str img.detail.token)) ∧
    (∀ d : ImageDetail, d.token = "high" ∨ d.token = "low" ∨ d.token = "auto") := by
  refine ⟨?_, ?_, fun d => by cases d <;> simp [ImageDetail.token]⟩
  · intro fields h
    have h3 : decodeField "detail" decodeImageDetail fields = none := by
      simp [decodeField, h]
    unfold decodeInputImageFields
    rw [h3]
    cases decodeOptField "image_url" decodeString fields <;>
      cases decodeOptField "file_id" decodeString fields <;> rfl
  · intro fields img h
    unfold decodeInputImageFields at h
    cases h1 : decodeOptField "image_url" decodeString fields with
    | none => rw [h1] at h; exact Option.noConfusion h
    | some u =>
      cases h2 : decodeOptField "file_id" decodeString fields with
      | none => rw [h1, h2] at h; exact Option.noConfusion h
      | some f =>
        cases h3 : decodeField "detail" decodeImageDetail fields with
        | none => rw [h1, h2, h3] at h; exact Option.noConfusion h
        | some d =>
          rw [h1, h2, h3] at h
          obtain rfl : InputImage.mk u f d = img := Option.some.inj h
          simp only [decodeField] at h3
          split at h3
          · exact Option.noConfusion h3
          · rename_i j heq
            cases j with
            | str s =>
              simp only [decodeImageDetail] at h3
              rw [heq]
              split_ifs at h3 with e1 e2 e3
              · obtain rfl : ImageDetail.High = d := Option.some.inj h3
                rw [e1]; rfl
              · obtain rfl : ImageDetail.Low = d := Option.some.inj h3
                rw [e2]; rfl
              · obtain rfl : ImageDetail.Auto = d := Option.some.inj h3
                rw [e3]; rfl
            | null => exact Option.noConfusion h3
            | bool b => exact Option.noConfusion h3
            | num q => exact Option.noConfusion h3
            | arr elements => exact Option.noConfusion h3
            | obj fs => exact Option.noConfusion h3

theorem claim_C10_witness :
    decodeInputImageFields [("image_url", Json.str "https://x.example/cat.png")] = none ∧
    jsonLookup "detail" [("detail", Json.str "auto")] =
      some (Json.str (InputImage.mk none none ImageDetail.Auto).detail.token) :=
  ⟨claim_C10_detail_required.1 [("image_url", Json.str "https://x.example/cat.png")] rfl,
   claim_C10_detail_required.2.1 [("detail", Json.str "auto")]
     (InputImage.mk none none ImageDetail.Auto) rfl⟩

end AsyncOpenAI
